import Mathlib
/-!
Shallow embedding of `src/docker_image_cache.py`.

The repository implements `DockerImageCache`, a capacity-bounded cache of
Docker images with reference-counted usage tracking and two eviction
policies.  This file embeds the class faithfully in Lean:

* Python `dict` (insertion-ordered, unique keys) is modelled as an
  association list `List (α × β)`; `dict.__setitem__` updates the first
  matching entry in place (preserving its position) or appends a fresh
  entry at the end, exactly as CPython does.
* Python `set` is modelled as a duplicate-free `List` (membership-checked
  insertion, `List.erase` for `set.remove`).
* Timestamps (`time.time()`) are modelled as `Int`; every call that reads
  the clock takes the current time `now` as an explicit argument.
* A method that can raise returns a pair `Option PyError × state`: the
  first component is the exception that propagated (if any), the second
  the object state after the call, i.e. after exactly those mutations
  that happened before the raise point.

One deliberate point of the embedding: `DockerImageCache.__init__` creates
the attributes `image_containers`, `image_usage_history`,
`container_start_times`, `time_window`, `cache_size` and `policy` — and no
other attribute.  `record_stop` (line 86 of the source) nevertheless
executes `self.image_total_usage_time[image_id] += usage_time`; since no
code path ever creates an attribute named `image_total_usage_time`, that
attribute read raises `AttributeError` whenever the branch is reached, and
it is reached before any state mutation of the call.  The embedding
therefore has no `image_total_usage_time` field and models line 86 as the
exception `PyError.attributeError` with the state unchanged.
-/
namespace ImageCache
abbrev ImageId := String
abbrev ContainerId := String
/-- The `EvictionPolicy` enum from the source (lines 8–11). -/
inductive EvictionPolicy where
  | leastFrequentlyUsed
  | leastTotalTimeUsed
  deriving DecidableEq, Repr
/-- The Python exceptions the embedded methods can raise. -/
inductive PyError where
  | attributeError
  deriving DecidableEq, Repr
/-- First value stored under key `k` in an association list
(Python `d[k]` read / the value consulted by `k in d`). -/
def dictFind [DecidableEq α] (d : List (α × β)) (k : α) : Option β :=
  (d.find? (fun p => p.1 = k)).map (·.2)
/-- Python `k in d`. -/
def dictContains [DecidableEq α] (d : List (α × β)) (k : α) : Bool :=
  (dictFind d k).isSome
/-- Update-or-append: replace the value of the first entry with key `k`
by `f` of it, keeping the entry's position; if `k` is absent, append
`(k, dflt)` at the end.  `dictSet` and `dictAddToSet` below are the two
instances used by the source. -/
def dictUpsert [DecidableEq α] (d : List (α × β)) (k : α) (f : β → β) (dflt : β) :
    List (α × β) :=
  match d with
  | [] => [(k, dflt)]
  | p :: rest => if p.1 = k then (k, f p.2) :: rest else p :: dictUpsert rest k f dflt
/-- Python `d[k] = v` on a dict. -/
def dictSet [DecidableEq α] (d : List (α × β)) (k : α) (v : β) : List (α × β) :=
  dictUpsert d k (fun _ => v) v
/-- Python `d.pop(k)` (discarding the returned value). -/
def dictPop [DecidableEq α] (d : List (α × β)) (k : α) : List (α × β) :=
  d.eraseP (fun p => p.1 = k)
/-- Python `s.add(c)` on a set modelled as a duplicate-free list. -/
def setAdd (l : List ContainerId) (c : ContainerId) : List ContainerId :=
  if c ∈ l then l else l ++ [c]
/-- `defaultdict(set)` indexing followed by `.add`:
`self.image_containers[image_id].add(container_id)`. -/
def dictAddToSet (d : List (ImageId × List ContainerId)) (i : ImageId) (c : ContainerId) :
    List (ImageId × List ContainerId) :=
  dictUpsert d i (fun l => setAdd l c) (setAdd [] c)
/-- The state created by `DockerImageCache.__init__` (source lines 24–51).
The `_lock` field is omitted: every public method holds the single lock
for its whole body, so each embedded call is one atomic state transition. -/
structure DockerImageCache where
  /-- Map of image_id → set of container_ids using this image
  (`defaultdict(set)`). -/
  image_containers : List (ImageId × List ContainerId)
  /-- Map of image_id → list of (start_time, end_time) (`defaultdict(list)`). -/
  image_usage_history : List (ImageId × List (Int × Int))
  /-- Map of (image_id, container_id) → start timestamp. -/
  container_start_times : List ((ImageId × ContainerId) × Int)
  /-- Time window in seconds for usage statistics. -/
  time_window : Int
  /-- Maximum number of images to keep in the cache. -/
  cache_size : Nat
  /-- Eviction policy to use. -/
  policy : EvictionPolicy
  deriving DecidableEq, Repr
namespace DockerImageCache
/-- Constructor `DockerImageCache(time_window, cache_size, policy)`: the fresh state. -/
def init (time_window : Int) (cache_size : Nat) (policy : EvictionPolicy) :
    DockerImageCache :=
  { image_containers := []
    image_usage_history := []
    container_start_times := []
    time_window := time_window
    cache_size := cache_size
    policy := policy }
/-- Method `_record_usage(image_id, container_id)` (source lines 53–68): add the
container to the image's set and store `now` as the start time of the
pair.  Never raises. -/
def record_usage (now : Int) (s : DockerImageCache) (image_id : ImageId)
    (container_id : ContainerId) : DockerImageCache :=
  { s with
    image_containers := dictAddToSet s.image_containers image_id container_id
    container_start_times :=
      dictSet s.container_start_times (image_id, container_id) now }
/-- Method `record_stop(image_id, container_id)` (source lines 70–93).  If an
Active Hold for the pair exists, the method reaches
`self.image_total_usage_time[image_id] += usage_time` (line 86); that
attribute is never created anywhere, so the read raises `AttributeError`
before any mutation (the `del` on line 89 and the set removal on line 93
are never reached in this branch).  Without a hold, the container is
removed from the image's set when present. -/
def record_stop (now : Int) (s : DockerImageCache) (image_id : ImageId)
    (container_id : ContainerId) : Option PyError × DockerImageCache :=
  match dictFind s.container_start_times (image_id, container_id) with
  | some _start_time =>
      (some PyError.attributeError, s)
  | none =>
      match dictFind s.image_containers image_id with
      | some containers =>
          if container_id ∈ containers then
            (none, { s with
              image_containers :=
                dictSet s.image_containers image_id (containers.erase container_id) })
          else (none, s)
      | none => (none, s)
/-- Method `_get_unused_images()` (source lines 95–105): image ids whose
container set is empty, in dict iteration (= insertion) order. -/
def get_unused_images (s : DockerImageCache) : List ImageId :=
  s.image_containers.filterMap (fun p => if p.2.length = 0 then some p.1 else none)
/-- Method `_count_recent_usage(image_id)` (source lines 107–129): number of
recorded intervals whose start time is within the trailing window. -/
def count_recent_usage (now : Int) (s : DockerImageCache) (image_id : ImageId) : Nat :=
  match dictFind s.image_usage_history image_id with
  | none => 0
  | some hist => (hist.filter (fun iv => now - s.time_window ≤ iv.1)).length
/-- Method `_get_total_usage_time(image_id)` (source lines 131–153): sum of the
durations of recorded intervals whose start time is within the window. -/
def get_total_usage_time (now : Int) (s : DockerImageCache) (image_id : ImageId) : Int :=
  match dictFind s.image_usage_history image_id with
  | none => 0
  | some hist =>
      ((hist.filter (fun iv => now - s.time_window ≤ iv.1)).map
        (fun iv => iv.2 - iv.1)).sum
/-- Python `min(x :: xs, key)`: the first element attaining the minimal
key (the running best is replaced only on a strictly smaller key). -/
def pyMinBy {β : Type} [LinearOrder β] (key : ImageId → β) :
    ImageId → List ImageId → ImageId
  | best, [] => best
  | best, x :: xs => if key x < key best then pyMinBy key x xs else pyMinBy key best xs
/-- The four return values of `put_image` (source docstring, lines 164–168). -/
inductive PutResult where
  /-- the string "Already in cache" -/
  | alreadyInCache
  /-- the string "Directly put in cache" -/
  | directlyPut
  /-- the id of the evicted image -/
  | evicted (image_id : ImageId)
  /-- Python `None`: the cache is too full -/
  | noCapacity
  deriving DecidableEq, Repr
/-- Method `put_image(image_id, container_id)` (source lines 155–209).  Note the
admission check on line 177 is `len(self.image_containers) <= self.cache_size`
(not `<`).  The `raise ValueError` arm on line 209 is unreachable because
`EvictionPolicy` has exactly the two members matched above it. -/
def put_image (now : Int) (s : DockerImageCache) (image_id : ImageId)
    (container_id : ContainerId) : PutResult × DockerImageCache :=
  if dictContains s.image_containers image_id then
    (PutResult.alreadyInCache, record_usage now s image_id container_id)
  else if s.image_containers.length ≤ s.cache_size then
    (PutResult.directlyPut, record_usage now s image_id container_id)
  else
    match get_unused_images s with
    | [] => (PutResult.noCapacity, s)
    | u :: us =>
        match s.policy with
        | EvictionPolicy.leastFrequentlyUsed =>
            let least_used_image := pyMinBy (fun x => count_recent_usage now s x) u us
            (PutResult.evicted least_used_image,
              record_usage now
                { s with image_containers := dictPop s.image_containers least_used_image }
                image_id container_id)
        | EvictionPolicy.leastTotalTimeUsed =>
            let least_time_used_image :=
              pyMinBy (fun x => get_total_usage_time now s x) u us
            (PutResult.evicted least_time_used_image,
              record_usage now
                { s with image_containers := dictPop s.image_containers least_time_used_image }
                image_id container_id)
/-- Method `get_image_stats()` (source lines 211–227): one tuple
`(image_id, container_count, recent_usage_count, total_usage_time)` per
resident image, in dict order. -/
def get_image_stats (now : Int) (s : DockerImageCache) :
    List (ImageId × Nat × Nat × Int) :=
  s.image_containers.map (fun p =>
    (p.1, p.2.length, count_recent_usage now s p.1, get_total_usage_time now s p.1))
end DockerImageCache
/-- One public call to the cache, tagged with the clock value the call
reads. -/
inductive Op where
  | put (now : Int) (image_id : ImageId) (container_id : ContainerId)
  | stop (now : Int) (image_id : ImageId) (container_id : ContainerId)
/-- The state transition of one call (an exception propagating out of
`record_stop` leaves the object in the state it had at the raise point). -/
def step (s : DockerImageCache) : Op → DockerImageCache
  | Op.put now i c => (DockerImageCache.put_image now s i c).2
  | Op.stop now i c => (DockerImageCache.record_stop now s i c).2
/-- Run a sequence of calls. -/
def run (s : DockerImageCache) (ops : List Op) : DockerImageCache :=
  ops.foldl step s
/-- The states reachable from a fresh cache with the given configuration
through any sequence of `put_image` / `record_stop` calls. -/
def Reachable (time_window : Int) (cache_size : Nat) (policy : EvictionPolicy)
    (s : DockerImageCache) : Prop :=
  ∃ ops : List Op, s = run (DockerImageCache.init time_window cache_size policy) ops
/-! Basic lemmas about the dictionary and set model. -/

/-! Concrete states and call sequences used by the claim theorems below. -/
/-- A cache at the eviction decision point of C4's concrete scenario:
both resident images unused, `A` with two starts inside the 60-second
window, `B` with one. -/
def lfuScenario : DockerImageCache :=
  { image_containers := [("A", []), ("B", [])]
    image_usage_history := [("A", [(95, 96), (97, 98)]), ("B", [(96, 99)])]
    container_start_times := []
    time_window := 60
    cache_size := 1
    policy := EvictionPolicy.leastFrequentlyUsed }
/-- A cache at the eviction decision point of C5's concrete scenario:
both resident images unused, `A` with 18 seconds of recent usage, `B`
with 15. -/
def lttuScenario : DockerImageCache :=
  { image_containers := [("A", []), ("B", [])]
    image_usage_history := [("A", [(50, 68)]), ("B", [(60, 75)])]
    container_start_times := []
    time_window := 60
    cache_size := 1
    policy := EvictionPolicy.leastTotalTimeUsed }
/-- The call sequence producing the concrete reachable state of C6's
witness: two images admitted, then the second consumer of image `a`
stopped without a hold (a no-op on the sets). -/
def unusedWitnessOps : List Op :=
  [Op.put 10 "a" "c1", Op.put 20 "b" "c2", Op.stop 30 "a" "zz"]
/-- The reachable state used by C6's witness. -/
def unusedWitnessState : DockerImageCache :=
  run (DockerImageCache.init 3600 5 EvictionPolicy.leastFrequentlyUsed) unusedWitnessOps
/-- The call sequence producing the concrete reachable state of C10's
witness. -/
def degenerateWitnessOps : List Op :=
  [Op.put 5 "x" "c1", Op.stop 6 "x" "c1", Op.put 7 "y" "c2"]
/-- The reachable state used by C10's witness. -/
def degenerateWitnessState : DockerImageCache :=
  run (DockerImageCache.init 60 3 EvictionPolicy.leastTotalTimeUsed) degenerateWitnessOps
/-- Python `set` semantics for the modelled container sets: each
resident image's container list is duplicate-free (automatically true of
any state whose sets came from Python `set` objects). -/
def SetsWellFormed (s : DockerImageCache) : Prop :=
  ∀ p ∈ s.image_containers, p.2.Nodup
instance (s : DockerImageCache) : Decidable (SetsWellFormed s) := by
  unfold SetsWellFormed
  infer_instance
/-- The concrete state used by C8's witness: one image admitted and its
hold still open. -/
def idemWitnessState : DockerImageCache :=
  (DockerImageCache.put_image 50
    (DockerImageCache.init 3600 100 EvictionPolicy.leastFrequentlyUsed)
    "imgX" "cX").2
/-- State after the first admission in the C1 scenario (fresh cache with
`cache_size = 1`). -/
def capacityBugState1 : DockerImageCache :=
  (DockerImageCache.put_image 100
    (DockerImageCache.init 3600 1 EvictionPolicy.leastFrequentlyUsed) "img1" "c1").2
/-- State with one open Active Hold for `("imgS", "cS")`, for C2. -/
def stopBugState : DockerImageCache :=
  (DockerImageCache.put_image 100
    (DockerImageCache.init 3600 100 EvictionPolicy.leastFrequentlyUsed) "imgS" "cS").2
/-- State after step 1 of the C3 scenario (`capacity = 1`,
`time_window = 60`). -/
def scenarioState1 : DockerImageCache :=
  (DockerImageCache.put_image 0
    (DockerImageCache.init 60 1 EvictionPolicy.leastFrequentlyUsed) "img1" "c1").2
/-- A cache exactly at capacity (`1` resident image, `cache_size = 1`)
whose only resident image has an active user, for C7. -/
def atCapacityBusyState : DockerImageCache :=
  (DockerImageCache.put_image 10
    (DockerImageCache.init 3600 1 EvictionPolicy.leastFrequentlyUsed) "imgA" "c1").2
/-- The call sequence reaching the state of C9's counterexample. -/
def raiseWitnessOps : List Op := [Op.put 100 "imgR" "cR"]
/-- A reachable state holding an open Active Hold, for C9. -/
def raiseWitnessState : DockerImageCache :=
  run (DockerImageCache.init 3600 100 EvictionPolicy.leastFrequentlyUsed) raiseWitnessOps
theorem dictFind_cons [DecidableEq α] (p : α × β) (rest : List (α × β)) (k : α) :
    dictFind (p :: rest) k = if p.1 = k then some p.2 else dictFind rest k := by
  by_cases h : p.1 = k
  · simp [dictFind, List.find?_cons_of_pos, h]
  · simp [dictFind, List.find?_cons_of_neg, h]
theorem dictFind_mem [DecidableEq α] {d : List (α × β)} {k : α} {v : β}
    (h : dictFind d k = some v) : (k, v) ∈ d := by
  unfold dictFind at h
  cases hf : d.find? (fun p => p.1 = k) with
  | none => rw [hf] at h; cases h
  | some p =>
      rw [hf] at h
      have hp : p ∈ d := List.mem_of_find?_eq_some hf
      have hk : p.1 = k := by simpa using List.find?_some hf
      have hv : p.2 = v := by simpa using h
      rw [← hk, ← hv]
      simpa using hp
theorem dictFind_dictUpsert_self [DecidableEq α] (d : List (α × β)) (k : α)
    (f : β → β) (dflt : β) :
    dictFind (dictUpsert d k f dflt) k = some ((dictFind d k).elim dflt f) := by
  induction d with
  | nil => simp [dictUpsert, dictFind]
  | cons p rest ih =>
      by_cases h : p.1 = k <;>
        simp [dictUpsert, dictFind_cons, h, ih]
theorem dictFind_dictSet_self [DecidableEq α] (d : List (α × β)) (k : α) (v : β) :
    dictFind (dictSet d k v) k = some v := by
  rw [dictSet, dictFind_dictUpsert_self]
  cases dictFind d k <;> rfl
theorem mem_keys_dictUpsert [DecidableEq α] (d : List (α × β)) (k : α)
    (f : β → β) (dflt : β) (x : α) :
    x ∈ (dictUpsert d k f dflt).map Prod.fst ↔ x ∈ d.map Prod.fst ∨ x = k := by
  induction d with
  | nil => simp [dictUpsert]
  | cons p rest ih =>
      by_cases h : p.1 = k
      · subst h
        simp [dictUpsert]
        tauto
      · simp [dictUpsert, h, ih]
        tauto
theorem nodup_keys_dictUpsert [DecidableEq α] (d : List (α × β)) (k : α)
    (f : β → β) (dflt : β) (h : (d.map Prod.fst).Nodup) :
    ((dictUpsert d k f dflt).map Prod.fst).Nodup := by
  induction d with
  | nil => simp [dictUpsert]
  | cons p rest ih =>
      rw [List.map_cons, List.nodup_cons] at h
      by_cases hpk : p.1 = k
      · subst hpk
        have hred : dictUpsert (p :: rest) p.1 f dflt = (p.1, f p.2) :: rest := by
          simp [dictUpsert]
        rw [hred, List.map_cons, List.nodup_cons]
        exact ⟨h.1, h.2⟩
      · simp only [dictUpsert, if_neg hpk, List.map_cons, List.nodup_cons]
        refine ⟨?_, ih h.2⟩
        rw [mem_keys_dictUpsert]
        rintro (hmem | rfl)
        · exact h.1 hmem
        · exact hpk rfl
theorem nodup_keys_dictPop [DecidableEq α] (d : List (α × β)) (k : α)
    (h : (d.map Prod.fst).Nodup) : ((dictPop d k).map Prod.fst).Nodup :=
  ((List.eraseP_sublist d).map Prod.fst).nodup h
/-! Lemmas about `pyMinBy`, the embedding of Python's `min(list, key)`. -/
theorem pyMinBy_mem {β : Type} [LinearOrder β] (key : ImageId → β) (b : ImageId)
    (xs : List ImageId) : DockerImageCache.pyMinBy key b xs ∈ b :: xs := by
  induction xs generalizing b with
  | nil => simp [DockerImageCache.pyMinBy]
  | cons x xs ih =>
      rw [DockerImageCache.pyMinBy]
      split
      · have h := ih x
        simp only [List.mem_cons] at h ⊢
        tauto
      · have h := ih b
        simp only [List.mem_cons] at h ⊢
        tauto
theorem pyMinBy_le_head {β : Type} [LinearOrder β] (key : ImageId → β) (b : ImageId)
    (xs : List ImageId) : key (DockerImageCache.pyMinBy key b xs) ≤ key b := by
  induction xs generalizing b with
  | nil => exact le_refl _
  | cons x xs ih =>
      rw [DockerImageCache.pyMinBy]
      by_cases hlt : key x < key b
      · rw [if_pos hlt]
        exact le_trans (ih x) (le_of_lt hlt)
      · rw [if_neg hlt]
        exact ih b
theorem pyMinBy_le_mem {β : Type} [LinearOrder β] (key : ImageId → β) (b : ImageId)
    (xs : List ImageId) :
    ∀ y ∈ xs, key (DockerImageCache.pyMinBy key b xs) ≤ key y := by
  induction xs generalizing b with
  | nil => intro y hy; cases hy
  | cons x xs ih =>
      intro y hy
      rw [DockerImageCache.pyMinBy]
      rcases List.mem_cons.1 hy with h1 | h2
      · by_cases hlt : key x < key b
        · rw [if_pos hlt, h1]
          exact pyMinBy_le_head key x xs
        · rw [if_neg hlt, h1]
          exact le_trans (pyMinBy_le_head key b xs) (le_of_not_lt hlt)
      · by_cases hlt : key x < key b
        · rw [if_pos hlt]
          exact ih x y h2
        · rw [if_neg hlt]
          exact ih b y h2
theorem pyMinBy_le {β : Type} [LinearOrder β] (key : ImageId → β) (b : ImageId)
    (xs : List ImageId) :
    ∀ y ∈ b :: xs, key (DockerImageCache.pyMinBy key b xs) ≤ key y := by
  intro y hy
  rcases List.mem_cons.1 hy with h1 | h2
  · rw [h1]
    exact pyMinBy_le_head key b xs
  · exact pyMinBy_le_mem key b xs y h2
theorem pyMinBy_of_key_const {β : Type} [LinearOrder β] (key : ImageId → β) (k : β)
    (hk : ∀ x, key x = k) (b : ImageId) (xs : List ImageId) :
    DockerImageCache.pyMinBy key b xs = b := by
  induction xs generalizing b with
  | nil => rfl
  | cons x xs ih =>
      rw [DockerImageCache.pyMinBy, hk x, hk b, if_neg (lt_irrefl k)]
      exact ih b
/-! Inversion of the eviction branch of `put_image`. -/
theorem put_image_evicted_eq (now : Int) (s : DockerImageCache)
    (i : ImageId) (c : ContainerId) (v : ImageId)
    (h : (DockerImageCache.put_image now s i c).1 = DockerImageCache.PutResult.evicted v) :
    ∃ u us, s.get_unused_images = u :: us ∧
      ((s.policy = EvictionPolicy.leastFrequentlyUsed ∧
          v = DockerImageCache.pyMinBy (fun x => s.count_recent_usage now x) u us) ∨
       (s.policy = EvictionPolicy.leastTotalTimeUsed ∧
          v = DockerImageCache.pyMinBy (fun x => s.get_total_usage_time now x) u us)) := by
  unfold DockerImageCache.put_image at h
  split at h
  · exact absurd h (by simp)
  · split at h
    · exact absurd h (by simp)
    · rename_i hunused
      split at h
      · exact absurd h (by simp)
      · rename_i u us hu
        split at h
        · rename_i hpol
          refine ⟨u, us, hu, Or.inl ⟨hpol, ?_⟩⟩
          simpa using h.symm
        · rename_i hpol
          refine ⟨u, us, hu, Or.inr ⟨hpol, ?_⟩⟩
          simpa using h.symm
/-- Shared corollary: an evicted victim is one of the unused images. -/
theorem put_image_evicted_mem_unused (now : Int) (s : DockerImageCache)
    (i : ImageId) (c : ContainerId) (v : ImageId)
    (h : (DockerImageCache.put_image now s i c).1 = DockerImageCache.PutResult.evicted v) :
    v ∈ s.get_unused_images := by
  obtain ⟨u, us, hu, hcase⟩ := put_image_evicted_eq now s i c v h
  rw [hu]
  rcases hcase with ⟨_, rfl⟩ | ⟨_, rfl⟩
  · exact pyMinBy_mem _ u us
  · exact pyMinBy_mem _ u us
/-! Lemmas about `_get_unused_images`. -/
theorem unused_subset_keys (d : List (ImageId × List ContainerId)) (i : ImageId)
    (h : i ∈ d.filterMap (fun p => if p.2.length = 0 then some p.1 else none)) :
    i ∈ d.map Prod.fst := by
  rw [List.mem_filterMap] at h
  obtain ⟨p, hp, hpi⟩ := h
  have hi : p.1 = i := by
    by_cases hl : p.2.length = 0
    · rw [if_pos hl] at hpi
      exact Option.some.inj hpi
    · rw [if_neg hl] at hpi
      cases hpi
  exact hi ▸ List.mem_map_of_mem Prod.fst hp
theorem mem_unused_iff_of_nodup (d : List (ImageId × List ContainerId))
    (hnd : (d.map Prod.fst).Nodup) (i : ImageId) :
    i ∈ d.filterMap (fun p => if p.2.length = 0 then some p.1 else none) ↔
      dictFind d i = some [] := by
  induction d with
  | nil => simp [dictFind]
  | cons p rest ih =>
      rw [List.map_cons, List.nodup_cons] at hnd
      rw [List.filterMap_cons, dictFind_cons]
      by_cases hpi : p.1 = i
      · rw [if_pos hpi]
        by_cases hl : p.2.length = 0
        · have hp2 : p.2 = [] := List.length_eq_zero.1 hl
          rw [if_pos hl, hp2]
          simp [hpi]
        · rw [if_neg hl]
          constructor
          · intro hmem
            have hkeys := unused_subset_keys rest i hmem
            rw [← hpi] at hkeys
            exact absurd hkeys hnd.1
          · intro hsome
            have hp2 : p.2 = [] := Option.some.inj hsome
            exact absurd (show p.2.length = 0 by rw [hp2]; rfl) hl
      · rw [if_neg hpi]
        by_cases hl : p.2.length = 0
        · rw [if_pos hl, List.mem_cons, ih hnd.2]
          constructor
          · rintro (h | h)
            · exact absurd h.symm hpi
            · exact h
          · exact Or.inr
        · rw [if_neg hl]
          exact ih hnd.2
/-! Invariants preserved by every call: the usage-history map is never
written, and the keys of the resident map stay duplicate-free. -/
theorem put_image_history (now : Int) (s : DockerImageCache) (i : ImageId)
    (c : ContainerId) :
    ((DockerImageCache.put_image now s i c).2).image_usage_history =
      s.image_usage_history := by
  unfold DockerImageCache.put_image
  repeat' split
  all_goals rfl
theorem record_stop_history (now : Int) (s : DockerImageCache) (i : ImageId)
    (c : ContainerId) :
    ((DockerImageCache.record_stop now s i c).2).image_usage_history =
      s.image_usage_history := by
  unfold DockerImageCache.record_stop
  repeat' split
  all_goals rfl
theorem put_image_nodup_keys (now : Int) (s : DockerImageCache) (i : ImageId)
    (c : ContainerId) (h : (s.image_containers.map Prod.fst).Nodup) :
    (((DockerImageCache.put_image now s i c).2).image_containers.map Prod.fst).Nodup := by
  unfold DockerImageCache.put_image
  repeat' split
  · exact nodup_keys_dictUpsert _ _ _ _ h
  · exact nodup_keys_dictUpsert _ _ _ _ h
  · exact h
  · exact nodup_keys_dictUpsert _ _ _ _ (nodup_keys_dictPop _ _ h)
  · exact nodup_keys_dictUpsert _ _ _ _ (nodup_keys_dictPop _ _ h)
theorem record_stop_nodup_keys (now : Int) (s : DockerImageCache) (i : ImageId)
    (c : ContainerId) (h : (s.image_containers.map Prod.fst).Nodup) :
    (((DockerImageCache.record_stop now s i c).2).image_containers.map Prod.fst).Nodup := by
  unfold DockerImageCache.record_stop
  repeat' split
  · exact h
  · exact nodup_keys_dictUpsert _ _ _ _ h
  · exact h
  · exact h
theorem step_history (s : DockerImageCache) (op : Op) :
    (step s op).image_usage_history = s.image_usage_history := by
  cases op with
  | put now i c => exact put_image_history now s i c
  | stop now i c => exact record_stop_history now s i c
theorem step_nodup_keys (s : DockerImageCache) (op : Op)
    (h : (s.image_containers.map Prod.fst).Nodup) :
    (((step s op).image_containers).map Prod.fst).Nodup := by
  cases op with
  | put now i c => exact put_image_nodup_keys now s i c h
  | stop now i c => exact record_stop_nodup_keys now s i c h
theorem run_history (s : DockerImageCache) (ops : List Op) :
    (run s ops).image_usage_history = s.image_usage_history := by
  induction ops generalizing s with
  | nil => rfl
  | cons op ops ih =>
      have hstep : run s (op :: ops) = run (step s op) ops := rfl
      rw [hstep, ih (step s op), step_history]
theorem run_nodup_keys (s : DockerImageCache) (ops : List Op)
    (h : (s.image_containers.map Prod.fst).Nodup) :
    (((run s ops).image_containers).map Prod.fst).Nodup := by
  induction ops generalizing s with
  | nil => exact h
  | cons op ops ih =>
      have hstep : run s (op :: ops) = run (step s op) ops := rfl
      rw [hstep]
      exact ih (step s op) (step_nodup_keys s op h)
theorem reachable_history_empty (tw : Int) (cap : Nat) (pol : EvictionPolicy)
    (s : DockerImageCache) (h : Reachable tw cap pol s) :
    s.image_usage_history = [] := by
  obtain ⟨ops, rfl⟩ := h
  rw [run_history]
  rfl
theorem reachable_nodup_keys (tw : Int) (cap : Nat) (pol : EvictionPolicy)
    (s : DockerImageCache) (h : Reachable tw cap pol s) :
    ((s.image_containers).map Prod.fst).Nodup := by
  obtain ⟨ops, rfl⟩ := h
  exact run_nodup_keys _ ops (by simp [DockerImageCache.init])
theorem count_recent_usage_of_history_empty (now : Int) (s : DockerImageCache)
    (i : ImageId) (h : s.image_usage_history = []) :
    DockerImageCache.count_recent_usage now s i = 0 := by
  unfold DockerImageCache.count_recent_usage
  rw [h]
  rfl
theorem get_total_usage_time_of_history_empty (now : Int) (s : DockerImageCache)
    (i : ImageId) (h : s.image_usage_history = []) :
    DockerImageCache.get_total_usage_time now s i = 0 := by
  unfold DockerImageCache.get_total_usage_time
  rw [h]
  rfl
/-- C4: whenever `put_image` evicts under `LEAST_FREQUENTLY_USED`, the
victim it returns is an unused image minimizing `_count_recent_usage`
(number of recorded intervals starting within the trailing window) over
all unused images. -/
theorem put_image_lfu_evicts_min_recent_usage (now : Int) (s : DockerImageCache)
    (i : ImageId) (c : ContainerId) (v : ImageId)
    (hpol : s.policy = EvictionPolicy.leastFrequentlyUsed)
    (hev : (DockerImageCache.put_image now s i c).1 = DockerImageCache.PutResult.evicted v) :
    v ∈ s.get_unused_images ∧
      ∀ u ∈ s.get_unused_images,
        DockerImageCache.count_recent_usage now s v ≤
          DockerImageCache.count_recent_usage now s u := by
  obtain ⟨u, us, hu, hcase⟩ := put_image_evicted_eq now s i c v hev
  rcases hcase with ⟨_, hv⟩ | ⟨hpol2, _⟩
  · subst hv
    rw [DockerImageCache.get_unused_images, ← DockerImageCache.get_unused_images, hu]
    exact ⟨pyMinBy_mem _ u us, pyMinBy_le _ u us⟩
  · exact EvictionPolicy.noConfusion (hpol.symm.trans hpol2)
/-- Witness for C4: in `lfuScenario` the hypotheses of
`put_image_lfu_evicts_min_recent_usage` hold concretely and eviction
selects `B` (1 recent start) over `A` (2 recent starts). -/
theorem put_image_lfu_evicts_min_recent_usage_witness :
    lfuScenario.policy = EvictionPolicy.leastFrequentlyUsed ∧
    (DockerImageCache.put_image 100 lfuScenario "img3" "c3").1 =
      DockerImageCache.PutResult.evicted "B" ∧
    DockerImageCache.count_recent_usage 100 lfuScenario "A" = 2 ∧
    DockerImageCache.count_recent_usage 100 lfuScenario "B" = 1 ∧
    ("B" ∈ lfuScenario.get_unused_images ∧
      ∀ u ∈ lfuScenario.get_unused_images,
        DockerImageCache.count_recent_usage 100 lfuScenario "B" ≤
          DockerImageCache.count_recent_usage 100 lfuScenario u) :=
  ⟨rfl, by decide, by decide, by decide,
    put_image_lfu_evicts_min_recent_usage 100 lfuScenario "img3" "c3" "B" rfl (by decide)⟩
/-- C5: whenever `put_image` evicts under `LEAST_TOTAL_TIME_USED`, the
victim it returns is an unused image minimizing `_get_total_usage_time`
(total duration of recorded intervals starting within the window) over
all unused images. -/
theorem put_image_lttu_evicts_min_total_time (now : Int) (s : DockerImageCache)
    (i : ImageId) (c : ContainerId) (v : ImageId)
    (hpol : s.policy = EvictionPolicy.leastTotalTimeUsed)
    (hev : (DockerImageCache.put_image now s i c).1 = DockerImageCache.PutResult.evicted v) :
    v ∈ s.get_unused_images ∧
      ∀ u ∈ s.get_unused_images,
        DockerImageCache.get_total_usage_time now s v ≤
          DockerImageCache.get_total_usage_time now s u := by
  obtain ⟨u, us, hu, hcase⟩ := put_image_evicted_eq now s i c v hev
  rcases hcase with ⟨hpol2, _⟩ | ⟨_, hv⟩
  · exact EvictionPolicy.noConfusion (hpol.symm.trans hpol2)
  · subst hv
    rw [DockerImageCache.get_unused_images, ← DockerImageCache.get_unused_images, hu]
    exact ⟨pyMinBy_mem _ u us, pyMinBy_le _ u us⟩
/-- Witness for C5: in `lttuScenario` the hypotheses of
`put_image_lttu_evicts_min_total_time` hold concretely and eviction
selects `B` (15 s) over `A` (18 s). -/
theorem put_image_lttu_evicts_min_total_time_witness :
    lttuScenario.policy = EvictionPolicy.leastTotalTimeUsed ∧
    (DockerImageCache.put_image 100 lttuScenario "img3" "c3").1 =
      DockerImageCache.PutResult.evicted "B" ∧
    DockerImageCache.get_total_usage_time 100 lttuScenario "A" = 18 ∧
    DockerImageCache.get_total_usage_time 100 lttuScenario "B" = 15 ∧
    ("B" ∈ lttuScenario.get_unused_images ∧
      ∀ u ∈ lttuScenario.get_unused_images,
        DockerImageCache.get_total_usage_time 100 lttuScenario "B" ≤
          DockerImageCache.get_total_usage_time 100 lttuScenario u) :=
  ⟨rfl, by decide, by decide, by decide,
    put_image_lttu_evicts_min_total_time 100 lttuScenario "img3" "c3" "B" rfl (by decide)⟩
/-- C6: in every reachable cache state, an image appears in
`_get_unused_images` iff it is resident with an empty active-user set
(`dictFind` returning `some []`), and whenever `put_image` evicts a
victim, that victim is in `_get_unused_images` and has no active users. -/
theorem unused_iff_empty_and_evict_only_unused (tw : Int) (cap : Nat)
    (pol : EvictionPolicy) (s : DockerImageCache) (h : Reachable tw cap pol s) :
    (∀ i : ImageId,
      i ∈ s.get_unused_images ↔ dictFind s.image_containers i = some []) ∧
    (∀ (now : Int) (i : ImageId) (c : ContainerId) (v : ImageId),
      (DockerImageCache.put_image now s i c).1 = DockerImageCache.PutResult.evicted v →
        v ∈ s.get_unused_images ∧ dictFind s.image_containers v = some []) := by
  have hnd := reachable_nodup_keys tw cap pol s h
  refine ⟨fun i => mem_unused_iff_of_nodup s.image_containers hnd i,
    fun now i c v hev => ?_⟩
  have hmem := put_image_evicted_mem_unused now s i c v hev
  exact ⟨hmem, (mem_unused_iff_of_nodup s.image_containers hnd v).1 hmem⟩
/-- Witness for C6 at a concrete reachable state. -/
theorem unused_iff_empty_and_evict_only_unused_witness :
    Reachable 3600 5 EvictionPolicy.leastFrequentlyUsed unusedWitnessState ∧
    ((∀ i : ImageId,
        i ∈ unusedWitnessState.get_unused_images ↔
          dictFind unusedWitnessState.image_containers i = some []) ∧
     (∀ (now : Int) (i : ImageId) (c : ContainerId) (v : ImageId),
        (DockerImageCache.put_image now unusedWitnessState i c).1 =
            DockerImageCache.PutResult.evicted v →
          v ∈ unusedWitnessState.get_unused_images ∧
            dictFind unusedWitnessState.image_containers v = some [])) :=
  ⟨⟨unusedWitnessOps, rfl⟩,
    unused_iff_empty_and_evict_only_unused 3600 5 EvictionPolicy.leastFrequentlyUsed
      unusedWitnessState ⟨unusedWitnessOps, rfl⟩⟩
/-- C10 (implicit): in every reachable state the usage-history map is
empty (no operation ever appends to it), so `_count_recent_usage` and
`_get_total_usage_time` return 0 for every image, `get_image_stats`
reports zero usage statistics for every resident image, and any
eviction — under either policy — selects the first unused image in the
resident map's insertion order. -/
theorem reachable_usage_history_degenerate (tw : Int) (cap : Nat)
    (pol : EvictionPolicy) (s : DockerImageCache) (h : Reachable tw cap pol s) :
    s.image_usage_history = [] ∧
    (∀ (now : Int) (i : ImageId),
      DockerImageCache.count_recent_usage now s i = 0 ∧
      DockerImageCache.get_total_usage_time now s i = 0) ∧
    (∀ now : Int, ∀ st ∈ DockerImageCache.get_image_stats now s,
      st.2.2.1 = 0 ∧ st.2.2.2 = 0) ∧
    (∀ (now : Int) (i : ImageId) (c : ContainerId) (v : ImageId),
      (DockerImageCache.put_image now s i c).1 = DockerImageCache.PutResult.evicted v →
        s.get_unused_images.head? = some v) := by
  have hh := reachable_history_empty tw cap pol s h
  refine ⟨hh,
    fun now i => ⟨count_recent_usage_of_history_empty now s i hh,
      get_total_usage_time_of_history_empty now s i hh⟩, ?_, ?_⟩
  · intro now st hst
    rw [DockerImageCache.get_image_stats, List.mem_map] at hst
    obtain ⟨p, _, rfl⟩ := hst
    exact ⟨count_recent_usage_of_history_empty now s p.1 hh,
      get_total_usage_time_of_history_empty now s p.1 hh⟩
  · intro now i c v hev
    obtain ⟨u, us, hu, hcase⟩ := put_image_evicted_eq now s i c v hev
    rw [DockerImageCache.get_unused_images, ← DockerImageCache.get_unused_images, hu]
    rcases hcase with ⟨_, hv⟩ | ⟨_, hv⟩
    · subst hv
      rw [pyMinBy_of_key_const _ 0
        (fun x => count_recent_usage_of_history_empty now s x hh) u us]
      rfl
    · subst hv
      rw [pyMinBy_of_key_const _ 0
        (fun x => get_total_usage_time_of_history_empty now s x hh) u us]
      rfl
/-- Witness for C10 at a concrete reachable state. -/
theorem reachable_usage_history_degenerate_witness :
    Reachable 60 3 EvictionPolicy.leastTotalTimeUsed degenerateWitnessState ∧
    (degenerateWitnessState.image_usage_history = [] ∧
     (∀ (now : Int) (i : ImageId),
       DockerImageCache.count_recent_usage now degenerateWitnessState i = 0 ∧
       DockerImageCache.get_total_usage_time now degenerateWitnessState i = 0) ∧
     (∀ now : Int, ∀ st ∈ DockerImageCache.get_image_stats now degenerateWitnessState,
       st.2.2.1 = 0 ∧ st.2.2.2 = 0) ∧
     (∀ (now : Int) (i : ImageId) (c : ContainerId) (v : ImageId),
       (DockerImageCache.put_image now degenerateWitnessState i c).1 =
           DockerImageCache.PutResult.evicted v →
         degenerateWitnessState.get_unused_images.head? = some v)) :=
  ⟨⟨degenerateWitnessOps, rfl⟩,
    reachable_usage_history_degenerate 60 3 EvictionPolicy.leastTotalTimeUsed
      degenerateWitnessState ⟨degenerateWitnessOps, rfl⟩⟩
/-- C8: calling `record_stop` twice in succession for the same
`(image, container)` pair leaves the cache in the same state as calling
it once, for every cache state (with genuine set semantics) and every
pair.  (With a hold present both calls raise before mutating; without
one, the second call finds the container already removed.) -/
theorem record_stop_idempotent (s : DockerImageCache) (hwf : SetsWellFormed s)
    (i : ImageId) (c : ContainerId) (now1 now2 : Int) :
    (DockerImageCache.record_stop now2
        (DockerImageCache.record_stop now1 s i c).2 i c).2 =
      (DockerImageCache.record_stop now1 s i c).2 := by
  cases hst : dictFind s.container_start_times (i, c) with
  | some t =>
      have h1 : (DockerImageCache.record_stop now1 s i c).2 = s := by
        unfold DockerImageCache.record_stop
        rw [hst]
      rw [h1]
      unfold DockerImageCache.record_stop
      rw [hst]
  | none =>
      cases hic : dictFind s.image_containers i with
      | none =>
          have h1 : (DockerImageCache.record_stop now1 s i c).2 = s := by
            unfold DockerImageCache.record_stop
            rw [hst, hic]
          rw [h1]
          unfold DockerImageCache.record_stop
          rw [hst, hic]
      | some containers =>
          by_cases hc : c ∈ containers
          · have h1 : (DockerImageCache.record_stop now1 s i c).2 =
                { s with image_containers :=
                    dictSet s.image_containers i (containers.erase c) } := by
              unfold DockerImageCache.record_stop
              rw [hst, hic]
              dsimp only
              rw [if_pos hc]
            have hnd : containers.Nodup := hwf (i, containers) (dictFind_mem hic)
            have hc2 : c ∉ containers.erase c := fun hmem =>
              ((hnd.mem_erase_iff).1 hmem).1 rfl
            rw [h1]
            unfold DockerImageCache.record_stop
            dsimp only
            rw [hst, dictFind_dictSet_self]
            dsimp only
            rw [if_neg hc2]
          · have h1 : (DockerImageCache.record_stop now1 s i c).2 = s := by
              unfold DockerImageCache.record_stop
              rw [hst, hic]
              dsimp only
              rw [if_neg hc]
            rw [h1]
            unfold DockerImageCache.record_stop
            rw [hst, hic]
            dsimp only
            rw [if_neg hc]
/-- Witness for C8 at a concrete state. -/
theorem record_stop_idempotent_witness :
    SetsWellFormed idemWitnessState ∧
    (DockerImageCache.record_stop 60
        (DockerImageCache.record_stop 55 idemWitnessState "imgX" "cX").2
        "imgX" "cX").2 =
      (DockerImageCache.record_stop 55 idemWitnessState "imgX" "cX").2 :=
  ⟨by decide, record_stop_idempotent idemWitnessState (by decide) "imgX" "cX" 55 60⟩
/-- C1 is violated by the code: from a fresh cache with `cache_size = 1`,
two `put_image` calls both return the terminal outcome
"Directly put in cache", after which 2 images are resident — exceeding
`cache_size`.  The admission check on line 177 uses `<=` instead of `<`,
admitting up to `cache_size + 1` residents. -/
theorem capacity_bound_violated :
    (DockerImageCache.put_image 100
      (DockerImageCache.init 3600 1 EvictionPolicy.leastFrequentlyUsed) "img1" "c1").1 =
        DockerImageCache.PutResult.directlyPut ∧
    (DockerImageCache.put_image 200 capacityBugState1 "img2" "c2").1 =
        DockerImageCache.PutResult.directlyPut ∧
    (DockerImageCache.put_image 200 capacityBugState1 "img2" "c2").2.image_containers.length
        = 2 ∧
    (DockerImageCache.put_image 200 capacityBugState1 "img2" "c2").2.cache_size = 1 := by
  decide
/-- C2 is violated by the code: with an Active Hold present,
`record_stop` raises `AttributeError` at line 86 (the attribute
`image_total_usage_time` is never created by `__init__`) and performs
none of the claimed updates — no interval is appended to
`image_usage_history`, the hold stays in `container_start_times`, and the
consumer stays in the image's active-user set. -/
theorem record_stop_fails_to_close_interval :
    dictFind stopBugState.container_start_times ("imgS", "cS") = some 100 ∧
    (DockerImageCache.record_stop 130 stopBugState "imgS" "cS").1 =
        some PyError.attributeError ∧
    (DockerImageCache.record_stop 130 stopBugState "imgS" "cS").2 = stopBugState ∧
    (DockerImageCache.record_stop 130 stopBugState "imgS" "cS").2.image_usage_history
        = [] ∧
    dictFind (DockerImageCache.record_stop 130 stopBugState "imgS" "cS").2.container_start_times
        ("imgS", "cS") = some 100 ∧
    dictFind (DockerImageCache.record_stop 130 stopBugState "imgS" "cS").2.image_containers
        "imgS" = some ["cS"] := by
  decide
/-- C3 is violated by the code: in the capacity-1 scenario the first
call returns "Directly put in cache" as claimed, but the second call —
which the claim says must return `None` because `img1` still has an
active user — also returns "Directly put in cache", again because of the
`<=` admission check on line 177. -/
theorem capacity_one_scenario_diverges :
    (DockerImageCache.put_image 0
      (DockerImageCache.init 60 1 EvictionPolicy.leastFrequentlyUsed) "img1" "c1").1 =
        DockerImageCache.PutResult.directlyPut ∧
    dictFind scenarioState1.image_containers "img1" = some ["c1"] ∧
    (DockerImageCache.put_image 1 scenarioState1 "img2" "c2").1 =
        DockerImageCache.PutResult.directlyPut ∧
    ¬((DockerImageCache.put_image 1 scenarioState1 "img2" "c2").1 =
        DockerImageCache.PutResult.noCapacity) := by
  decide
/-- C7 is violated by the code: with the cache at capacity, every
resident image busy and the requested image not resident, `put_image`
does not return `None` with the state unchanged — the `<=` check on line
177 admits the new image and mutates the state. -/
theorem at_capacity_all_busy_admits_anyway :
    atCapacityBusyState.image_containers.length = atCapacityBusyState.cache_size ∧
    atCapacityBusyState.get_unused_images = [] ∧
    dictContains atCapacityBusyState.image_containers "imgB" = false ∧
    (DockerImageCache.put_image 20 atCapacityBusyState "imgB" "c2").1 =
        DockerImageCache.PutResult.directlyPut ∧
    ¬((DockerImageCache.put_image 20 atCapacityBusyState "imgB" "c2").2 =
        atCapacityBusyState) := by
  decide
/-- C9 is violated by the code: there is a reachable state (one image
admitted, hold open) on which `record_stop` raises `AttributeError`
instead of completing normally. -/
theorem record_stop_raises_on_reachable_state :
    Reachable 3600 100 EvictionPolicy.leastFrequentlyUsed raiseWitnessState ∧
    (DockerImageCache.record_stop 150 raiseWitnessState "imgR" "cR").1 =
        some PyError.attributeError :=
  ⟨⟨raiseWitnessOps, rfl⟩, by decide⟩
end ImageCache
